import Mathlib

/-!
# Verification of the langgraph-google-genai agent workflow

Shallow embedding of `src/workflows/agent_workflow.py`,
`src/services/conversation_service.py` and the supporting data model.
The external generative-model gateway is a parameter (`Oracle`): it maps the
request text of a single-shot call to a `ModelResponse` and the request text
of a streaming call to the finite list of chunks the stream yields.
Token counts are modelled as naturals (they count tokens).
String `upper`/`lower` and the `in` substring operator of Python are
embedded over character lists.
-/

namespace AgentWorkflow

/-! ## String operations (Python `str.upper`, `str.lower`, `in`) -/

/-- Does the list start with `p`? Embeds the prefix test that underlies
Python's substring operator. -/
def startsWithL : List Char → List Char → Bool
  | [], _ => true
  | _ :: _, [] => false
  | p :: ps, c :: cs => p == c && startsWithL ps cs

/-- Python's `in` operator on strings, over character lists: `p` occurs
contiguously somewhere in the second list. -/
def containsL : List Char → List Char → Bool
  | p, [] => startsWithL p []
  | p, c :: cs => startsWithL p (c :: cs) || containsL p cs

/-- Python `pat in s` for strings. -/
def strContainsSub (pat s : String) : Bool :=
  containsL pat.data s.data

/-- Python `str.upper` (ASCII fragment). -/
def strUpper (s : String) : String :=
  ⟨s.data.map Char.toUpper⟩

/-- Python `str.lower` (ASCII fragment). -/
def strLower (s : String) : String :=
  ⟨s.data.map Char.toLower⟩

theorem startsWithL_iff (p l : List Char) :
    startsWithL p l = true ↔ ∃ t, l = p ++ t := by
  induction p generalizing l with
  | nil => simp [startsWithL]
  | cons a as ih =>
    cases l with
    | nil => simp [startsWithL]
    | cons b bs =>
      simp only [startsWithL, Bool.and_eq_true, beq_iff_eq, ih, List.cons_append,
        List.cons.injEq]
      constructor
      · rintro ⟨rfl, t, rfl⟩
        exact ⟨t, rfl, rfl⟩
      · rintro ⟨t, rfl, rfl⟩
        exact ⟨rfl, t, rfl⟩

theorem containsL_iff (p l : List Char) :
    containsL p l = true ↔ ∃ pre post, l = pre ++ p ++ post := by
  induction l with
  | nil =>
    simp only [containsL, startsWithL_iff]
    constructor
    · rintro ⟨t, ht⟩
      rcases List.append_eq_nil.mp ht.symm with ⟨rfl, rfl⟩
      exact ⟨[], [], rfl⟩
    · rintro ⟨pre, post, h⟩
      rcases List.append_eq_nil.mp h.symm with ⟨h1, rfl⟩
      rcases List.append_eq_nil.mp h1 with ⟨rfl, rfl⟩
      exact ⟨[], rfl⟩
  | cons c cs ih =>
    simp only [containsL, Bool.or_eq_true, startsWithL_iff, ih]
    constructor
    · rintro (⟨t, ht⟩ | ⟨pre, post, h⟩)
      · exact ⟨[], t, by simpa using ht⟩
      · exact ⟨c :: pre, post, by simp [h]⟩
    · rintro ⟨pre, post, h⟩
      cases pre with
      | nil => exact Or.inl ⟨post, by simpa using h⟩
      | cons x xs =>
        rcases List.cons_eq_cons.mp (by simpa using h) with ⟨rfl, h2⟩
        exact Or.inr ⟨xs, post, by simpa [List.append_assoc] using h2⟩

theorem join_append_one (l : List String) (t : String) :
    String.join (l ++ [t]) = String.join l ++ t := by
  simp [String.join, List.foldl_append]

/-! ## Data model -/

/-- `GraphState` of `agent_workflow.py`.  A field is `none` while the
corresponding key is absent from the langgraph state dict (only `prompt`
is supplied as input; the other keys appear when a node first returns
them in its partial update). -/
structure GraphState where
  prompt : String
  answer : Option String
  has_context : Option Bool
  has_documents : Option Bool
  deriving DecidableEq, Repr

/-- The `langsmith.schemas.UsageMetadata` record built by
`AgentWorkFlow.__usage_metadata`. -/
structure UsageReport where
  input_tokens : Nat
  output_tokens : Nat
  total_tokens : Nat
  deriving DecidableEq, Repr

/-- The record `__usage_metadata(input_tokens, output_tokens)` builds:
`total_tokens` is always the sum. -/
def usage_metadata_report (input_tokens output_tokens : Nat) : UsageReport :=
  { input_tokens := input_tokens
    output_tokens := output_tokens
    total_tokens := input_tokens + output_tokens }

/-- Result of a single-shot `client.models.generate_content` call: its text
and the token counts of its `usage_metadata`. -/
structure ModelResponse where
  text : String
  prompt_token_count : Nat
  candidates_token_count : Nat

/-- The `usage_metadata` a streamed chunk may carry. -/
structure ChunkUsage where
  prompt_token_count : Nat
  candidates_token_count : Nat
  deriving DecidableEq, Repr

/-- One chunk of `generate_content_stream`: `usage_metadata` is `none` when
the chunk carries no usage object, `text` is `none` when the chunk carries
no text (Python's truthiness also treats `""` like absent text). -/
structure Chunk where
  usage_metadata : Option ChunkUsage
  text : Option String
  deriving DecidableEq, Repr

/-- The external model gateway: what the remote model answers to a
single-shot request and which chunks a streaming request yields. -/
structure Oracle where
  generate_content : String → ModelResponse
  generate_content_stream : String → List Chunk

/-- The graph's node names as registered in `__build_graph`, plus langgraph's
`END`. -/
inductive Node
  | check_context
  | retrieve_rag
  | generate_answer
  | cannot_answer
  | END
  deriving DecidableEq, Repr, Fintype

/-- An event of `app.astream(..., stream_mode=[...])` that `stream` can
forward: a `"values"` event carries the full state after a step, a
`"custom"` event carries the `{"answer": fragment}` payload of
`get_stream_writer` (modelled by the fragment).  The other requested modes
(`updates`, `messages`, `checkpoints`, `tasks`) are dropped by `stream`'s
mode filter and are not modelled. -/
inductive StreamEvent
  | values (state : GraphState)
  | custom (answer : String)
  deriving DecidableEq, Repr

/-- What one node execution produces: the merged state, the usage reports
recorded via `__usage_metadata`, the `"custom"` stream events written during
the node, and how many model-gateway calls the node issued. -/
structure StepResult where
  state : GraphState
  reports : List UsageReport
  events : List StreamEvent
  model_calls : Nat

/-- A whole execution of the compiled graph. -/
structure Trace where
  finalState : GraphState
  finalNode : Node
  nodesRun : List Node
  usageReports : List UsageReport
  events : List StreamEvent
  model_calls : Nat

/-! ## Node handlers (`AgentWorkFlow` methods) -/

/-- The classification query `check_context_node` sends to the model,
built exactly as in the source. -/
def check_context_prompt (prompt : String) : String :=
  "Does the following input contain a clear question or topic with enough context to answer?\n\nInput: "
    ++ prompt ++ "\n\nAnswer YES or NO."

/-- `AgentWorkFlow.check_context_node`: one single-shot call, then
`has_context := "YES" in response.text.upper()`, and one
`__usage_metadata` record from the response's token counts. -/
def check_context_node (oracle : Oracle) (state : GraphState) : StepResult :=
  let response := oracle.generate_content (check_context_prompt state.prompt)
  { state := { state with
      has_context := some (strContainsSub "YES" (strUpper response.text)) }
    reports := [usage_metadata_report response.prompt_token_count
      response.candidates_token_count]
    events := []
    model_calls := 1 }

/-- The `mock_knowledge_base` dict of `retrieve_rag_node`, in insertion
order. -/
def mock_knowledge_base : List (String × String) :=
  [("langgraph",
    "LangGraph is a library for building stateful, multi-actor applications with LLMs."),
   ("python",
    "Python is a high-level, interpreted programming language known for readability."),
   ("gemini",
    "Gemini is Google's most capable AI model, built to be natively multimodal.")]

/-- `documents = [v for k, v in mock_knowledge_base.items() if k in query]`
with `query = state["prompt"].lower()`. -/
def retrieved_documents (prompt : String) : List String :=
  (mock_knowledge_base.filter fun kv => strContainsSub kv.1 (strLower prompt)).map (·.2)

/-- `AgentWorkFlow.retrieve_rag_node`: no model call, no usage record;
`has_documents := bool(documents)`. -/
def retrieve_rag_node (state : GraphState) : StepResult :=
  { state := { state with
      has_documents := some (!(retrieved_documents state.prompt).isEmpty) }
    reports := []
    events := []
    model_calls := 0 }

/-- The loop state of `generate_answer_node`'s `async for`: the
accumulated `response_text`, the current `input_tokens`/`output_tokens`,
and the fragments written so far via `writer({"answer": chunk.text})`. -/
structure GenAcc where
  response_text : String
  input_tokens : Nat
  output_tokens : Nat
  written : List String
  deriving DecidableEq, Repr

/-- One iteration of `generate_answer_node`'s loop: a truthy
`usage_metadata` overwrites the token counts; a truthy (present and
non-empty) `text` is appended to `response_text` and written to the
custom stream. -/
def genStep (acc : GenAcc) (chunk : Chunk) : GenAcc :=
  let acc :=
    match chunk.usage_metadata with
    | some u => { acc with
        input_tokens := u.prompt_token_count
        output_tokens := u.candidates_token_count }
    | none => acc
  match chunk.text with
  | none => acc
  | some t =>
    if t = "" then acc
    else { acc with
      response_text := acc.response_text ++ t
      written := acc.written ++ [t] }

/-- The whole `async for` loop of `generate_answer_node`, starting from
`response_text = ""`, `input_tokens = output_tokens = 0`. -/
def stream_accumulate (chunks : List Chunk) : GenAcc :=
  chunks.foldl genStep
    { response_text := "", input_tokens := 0, output_tokens := 0, written := [] }

/-- `AgentWorkFlow.generate_answer_node`: one streaming call, fragments
forwarded as custom events as they arrive, one `__usage_metadata` record
at stream exhaustion, `answer := response_text`. -/
def generate_answer_node (oracle : Oracle) (state : GraphState) : StepResult :=
  let acc := stream_accumulate (oracle.generate_content_stream state.prompt)
  { state := { state with answer := some acc.response_text }
    reports := [usage_metadata_report acc.input_tokens acc.output_tokens]
    events := acc.written.map StreamEvent.custom
    model_calls := 1 }

/-- The fixed refusal text of `cannot_answer_node`. -/
def fallback_answer : String :=
  "I'm sorry, but I cannot provide an answer based on the given input."

/-- `AgentWorkFlow.cannot_answer_node`: pure fallback terminal. -/
def cannot_answer_node (state : GraphState) : StepResult :=
  { state := { state with answer := some fallback_answer }
    reports := []
    events := []
    model_calls := 0 }

/-! ## Graph wiring (`AgentWorkFlow.__build_graph`) -/

/-- `AgentWorkFlow.check_context_condition`.  In a langgraph run the key
is always present when the condition is evaluated; an absent key is read
as falsy here. -/
def check_context_condition (state : GraphState) : String :=
  if state.has_context.getD false then "has_context" else "no_context"

/-- `AgentWorkFlow.retrieve_rag_condition`. -/
def retrieve_rag_condition (state : GraphState) : String :=
  if state.has_documents.getD false then "has_documents" else "no_documents"

/-- The outcome map of the conditional edge registered on
`check_context`. -/
def check_context_edges : List (String × Node) :=
  [("has_context", .retrieve_rag), ("no_context", .cannot_answer)]

/-- The outcome map of the conditional edge registered on
`retrieve_rag`. -/
def retrieve_rag_edges : List (String × Node) :=
  [("has_documents", .generate_answer), ("no_documents", .cannot_answer)]

/-- `workflow.set_entry_point("check_context")`. -/
def entry_point : Node := .check_context

/-- Where the compiled graph goes after `n` given the current state:
conditional edges look the condition's outcome label up in their map,
`generate_answer` has the unconditional edge to `END`, and
`cannot_answer` (no registered outgoing edge) and `END` are terminal. -/
def routeFrom (n : Node) (state : GraphState) : Option Node :=
  match n with
  | .check_context => check_context_edges.lookup (check_context_condition state)
  | .retrieve_rag => retrieve_rag_edges.lookup (retrieve_rag_condition state)
  | .generate_answer => some .END
  | .cannot_answer => none
  | .END => none

/-- The static successor set of a node: all targets its edges can reach,
independent of state. -/
def successors : Node → List Node
  | .check_context => check_context_edges.map (·.2)
  | .retrieve_rag => retrieve_rag_edges.map (·.2)
  | .generate_answer => [.END]
  | .cannot_answer => []
  | .END => []

/-! ## Execution (langgraph's traversal of the compiled graph) -/

/-- Dispatch one node's handler. `END` runs nothing. -/
def runNode (oracle : Oracle) (n : Node) (state : GraphState) : StepResult :=
  match n with
  | .check_context => check_context_node oracle state
  | .retrieve_rag => retrieve_rag_node state
  | .generate_answer => generate_answer_node oracle state
  | .cannot_answer => cannot_answer_node state
  | .END => { state := state, reports := [], events := [], model_calls := 0 }

/-- Traverse the compiled graph from node `n`, with a step bound (the
topology needs at most four steps; the bound is the defensive guard of
any fuelled traversal).  After each node the scheduler emits a
`"values"` event carrying the merged state. -/
def runFrom (oracle : Oracle) : Nat → Node → GraphState → Trace
  | 0, n, s =>
    { finalState := s, finalNode := n, nodesRun := [], usageReports := []
      events := [], model_calls := 0 }
  | fuel + 1, n, s =>
    match n with
    | .END =>
      { finalState := s, finalNode := .END, nodesRun := [], usageReports := []
        events := [], model_calls := 0 }
    | _ =>
      let r := runNode oracle n s
      match routeFrom n r.state with
      | none =>
        { finalState := r.state, finalNode := n, nodesRun := [n]
          usageReports := r.reports
          events := r.events ++ [.values r.state]
          model_calls := r.model_calls }
      | some n' =>
        let t := runFrom oracle fuel n' r.state
        { finalState := t.finalState, finalNode := t.finalNode
          nodesRun := n :: t.nodesRun
          usageReports := r.reports ++ t.usageReports
          events := (r.events ++ [.values r.state]) ++ t.events
          model_calls := r.model_calls + t.model_calls }

/-- One execution of the compiled graph on `{"prompt": prompt}`: langgraph
first emits the input state on the `"values"` channel, then traverses from
the entry point. -/
def runWorkflow (oracle : Oracle) (prompt : String) : Trace :=
  let init : GraphState :=
    { prompt := prompt, answer := none, has_context := none, has_documents := none }
  let t := runFrom oracle 8 entry_point init
  { t with events := .values init :: t.events }

/-! ## The public stream (`AgentWorkFlow.stream`) and the conversation
boundary (`ConversationService.converse`) -/

/-- `chunk.get("answer")` on a forwarded event: a `"values"` chunk is the
state dict, a `"custom"` chunk is the `{"answer": fragment}` payload. -/
def chunk_answer : StreamEvent → Option String
  | .values s => s.answer
  | .custom a => some a

/-- The body of `stream`'s loop: yield `chunk["answer"]` when
`chunk.get("answer")` is truthy (present and non-empty). -/
def stream_output? (e : StreamEvent) : Option String :=
  match chunk_answer e with
  | some a => if a = "" then none else some a
  | none => none

/-- What `AgentWorkFlow.stream(prompt)` yields: the `"custom"` and
`"values"` events of the execution, filtered by answer-truthiness. -/
def streamOutputs (oracle : Oracle) (prompt : String) : List String :=
  (runWorkflow oracle prompt).events.filterMap stream_output?

/-- The `"custom"` (per-fragment) events among a list of stream events,
in order. -/
def customEvents (events : List StreamEvent) : List String :=
  events.filterMap fun e =>
    match e with
    | .custom a => some a
    | .values _ => none

/-- The server-sent event `converse` yields for one fragment. -/
def sse_event (chunk : String) : String := "data: " ++ chunk ++ "\n\n"

/-- The terminal event `converse` yields from its `except` handler. -/
def sse_error_event : String := "data: [ERROR]\n\n"

/-- `ConversationService.converse`: the workflow stream yields `chunks`
and then either ends normally (`raised = false`) or raises
(`raised = true`); every received fragment is forwarded wrapped, and the
`except` handler turns a raise into one terminal error event. -/
def converse : List String → Bool → List String
  | [], raised => if raised then [sse_error_event] else []
  | c :: rest, raised => sse_event c :: converse rest raised

/-! ## The usage recorder (`AgentWorkFlow.__usage_metadata`) -/

/-- How the trace sink behaves during one `__usage_metadata` call:
`get_current_run_tree()` returns no run, or returns a run whose
`add_metadata` succeeds, or returns a run whose `add_metadata` raises. -/
inductive TraceSinkBehavior
  | no_run
  | attach_ok
  | attach_raises (msg : String)
  deriving DecidableEq, Repr

/-- `AgentWorkFlow.__usage_metadata` with its control flow made explicit:
the method has no `try`/`except`, so when `run.add_metadata` raises the
exception propagates to the caller (`Except.error`); otherwise the list
of metadata records attached to the run is returned. -/
def usage_metadata (sink : TraceSinkBehavior) (input_tokens output_tokens : Nat) :
    Except String (List UsageReport) :=
  match sink with
  | .no_run => .ok []
  | .attach_ok => .ok [usage_metadata_report input_tokens output_tokens]
  | .attach_raises msg => .error msg

/-! ## Helper views of an execution -/

/-- The boolean `check_context_node` stores into `has_context` for a given
prompt: `"YES" in response.text.upper()`. -/
def has_context_of (oracle : Oracle) (prompt : String) : Bool :=
  strContainsSub "YES"
    (strUpper (oracle.generate_content (check_context_prompt prompt)).text)

/-- The boolean `retrieve_rag_node` stores into `has_documents`:
`bool(documents)`. -/
def has_documents_of (prompt : String) : Bool :=
  !(retrieved_documents prompt).isEmpty

/-- The usage record of the context check. -/
def check_report (oracle : Oracle) (prompt : String) : UsageReport :=
  usage_metadata_report
    (oracle.generate_content (check_context_prompt prompt)).prompt_token_count
    (oracle.generate_content (check_context_prompt prompt)).candidates_token_count

/-- The usage record of the generation node. -/
def gen_report (oracle : Oracle) (prompt : String) : UsageReport :=
  usage_metadata_report
    (stream_accumulate (oracle.generate_content_stream prompt)).input_tokens
    (stream_accumulate (oracle.generate_content_stream prompt)).output_tokens

/-- The last `usage_metadata` object among a chunk list (the one whose
counts survive the loop's overwrites). -/
def last_usage : List Chunk → Option ChunkUsage
  | [] => none
  | c :: rest =>
    match last_usage rest with
    | some u => some u
    | none => c.usage_metadata

/-- A topological rank for the graph: every edge strictly increases it,
which certifies the absence of cycles. -/
def nodeRank : Node → Nat
  | .check_context => 0
  | .retrieve_rag => 1
  | .generate_answer => 2
  | .cannot_answer => 3
  | .END => 3

/-! ## Path lemmas: the three executions the routing admits -/

theorem run_no_context (oracle : Oracle) (prompt : String)
    (h : has_context_of oracle prompt = false) :
    runWorkflow oracle prompt =
      { finalState := ⟨prompt, some fallback_answer, some false, none⟩
        finalNode := .cannot_answer
        nodesRun := [.check_context, .cannot_answer]
        usageReports := [check_report oracle prompt]
        events := [.values ⟨prompt, none, none, none⟩,
          .values ⟨prompt, none, some false, none⟩,
          .values ⟨prompt, some fallback_answer, some false, none⟩]
        model_calls := 1 } := by
  simp only [has_context_of] at h
  simp [runWorkflow, runFrom, entry_point, runNode, routeFrom, check_context_node,
    cannot_answer_node, check_context_condition, check_context_edges, List.lookup,
    check_report, usage_metadata_report, h]

theorem run_no_documents (oracle : Oracle) (prompt : String)
    (h1 : has_context_of oracle prompt = true)
    (h2 : has_documents_of prompt = false) :
    runWorkflow oracle prompt =
      { finalState := ⟨prompt, some fallback_answer, some true, some false⟩
        finalNode := .cannot_answer
        nodesRun := [.check_context, .retrieve_rag, .cannot_answer]
        usageReports := [check_report oracle prompt]
        events := [.values ⟨prompt, none, none, none⟩,
          .values ⟨prompt, none, some true, none⟩,
          .values ⟨prompt, none, some true, some false⟩,
          .values ⟨prompt, some fallback_answer, some true, some false⟩]
        model_calls := 1 } := by
  simp only [has_context_of] at h1
  simp only [has_documents_of] at h2
  simp [runWorkflow, runFrom, entry_point, runNode, routeFrom, check_context_node,
    retrieve_rag_node, cannot_answer_node, check_context_condition,
    retrieve_rag_condition, check_context_edges, retrieve_rag_edges, List.lookup,
    check_report, usage_metadata_report, h1, h2]

theorem run_success (oracle : Oracle) (prompt : String)
    (h1 : has_context_of oracle prompt = true)
    (h2 : has_documents_of prompt = true) :
    runWorkflow oracle prompt =
      { finalState := ⟨prompt,
          some (stream_accumulate (oracle.generate_content_stream prompt)).response_text,
          some true, some true⟩
        finalNode := .END
        nodesRun := [.check_context, .retrieve_rag, .generate_answer]
        usageReports := [check_report oracle prompt, gen_report oracle prompt]
        events := [.values ⟨prompt, none, none, none⟩,
            .values ⟨prompt, none, some true, none⟩,
            .values ⟨prompt, none, some true, some true⟩] ++
          ((stream_accumulate (oracle.generate_content_stream prompt)).written.map
            StreamEvent.custom) ++
          [.values ⟨prompt,
            some (stream_accumulate (oracle.generate_content_stream prompt)).response_text,
            some true, some true⟩]
        model_calls := 2 } := by
  simp only [has_context_of] at h1
  simp only [has_documents_of] at h2
  simp [runWorkflow, runFrom, entry_point, runNode, routeFrom, check_context_node,
    retrieve_rag_node, generate_answer_node, check_context_condition,
    retrieve_rag_condition, check_context_edges, retrieve_rag_edges, List.lookup,
    check_report, gen_report, usage_metadata_report, h1, h2]

/-! ## Properties of the generation loop -/

theorem genStep_tokens (acc : GenAcc) (c : Chunk) :
    (genStep acc c).input_tokens =
      (match c.usage_metadata with
        | some u => u.prompt_token_count
        | none => acc.input_tokens) ∧
    (genStep acc c).output_tokens =
      (match c.usage_metadata with
        | some u => u.candidates_token_count
        | none => acc.output_tokens) := by
  rcases c with ⟨u, t⟩
  cases u <;> cases t <;> simp [genStep] <;> split <;> simp

theorem foldl_genStep_tokens (chunks : List Chunk) :
    ∀ acc : GenAcc,
      (chunks.foldl genStep acc).input_tokens =
        (match last_usage chunks with
          | some u => u.prompt_token_count
          | none => acc.input_tokens) ∧
      (chunks.foldl genStep acc).output_tokens =
        (match last_usage chunks with
          | some u => u.candidates_token_count
          | none => acc.output_tokens) := by
  induction chunks with
  | nil => intro acc; exact ⟨rfl, rfl⟩
  | cons c cs ih =>
    intro acc
    rcases ih (genStep acc c) with ⟨hi, ho⟩
    rcases genStep_tokens acc c with ⟨gi, go⟩
    simp only [List.foldl_cons, hi, ho, last_usage]
    cases last_usage cs <;> cases hc : c.usage_metadata <;> simp [gi, go, hc]

theorem foldl_genStep_join (chunks : List Chunk) :
    ∀ acc : GenAcc, acc.response_text = String.join acc.written →
      (chunks.foldl genStep acc).response_text =
        String.join (chunks.foldl genStep acc).written := by
  induction chunks with
  | nil => exact fun acc h => h
  | cons c cs ih =>
    intro acc h
    refine ih _ ?_
    rcases c with ⟨u, t⟩
    cases u <;> cases t <;> simp [genStep, h] <;> split <;>
      simp [h, join_append_one]

theorem foldl_genStep_written_ne (chunks : List Chunk) :
    ∀ acc : GenAcc, (∀ t ∈ acc.written, t ≠ "") →
      ∀ t ∈ (chunks.foldl genStep acc).written, t ≠ "" := by
  induction chunks with
  | nil => exact fun acc h => h
  | cons c cs ih =>
    intro acc h
    refine ih _ ?_
    rcases c with ⟨u, tx⟩
    cases u <;> cases tx <;> simp [genStep]
    all_goals first
      | exact h
      | (split
         · exact h
         · intro t ht
           rcases List.mem_append.mp ht with hm | hm
           · exact h t hm
           · simp at hm
             subst hm
             assumption)

/-- The reconstruction invariant at the loop's start: the accumulated
text is the concatenation of the written fragments. -/
theorem stream_accumulate_join (chunks : List Chunk) :
    (stream_accumulate chunks).response_text =
      String.join (stream_accumulate chunks).written :=
  foldl_genStep_join chunks _ rfl

/-- Every fragment the generation loop writes is non-empty. -/
theorem stream_accumulate_written_ne (chunks : List Chunk) :
    ∀ t ∈ (stream_accumulate chunks).written, t ≠ "" :=
  foldl_genStep_written_ne chunks _ (by simp)

/-- The truthiness filter of `stream` keeps a list of non-empty strings
unchanged. -/
theorem filterMap_truthy_keep (l : List String) (h : ∀ t ∈ l, t ≠ "") :
    (l.filterMap fun t => if t = "" then none else some t) = l := by
  induction l with
  | nil => rfl
  | cons a as ih =>
    rw [List.filterMap_cons]
    simp only [h a (by simp), if_false, reduceIte]
    rw [ih fun t ht => h t (by simp [ht])]

theorem customEvents_append (a b : List StreamEvent) :
    customEvents (a ++ b) = customEvents a ++ customEvents b :=
  List.filterMap_append ..

theorem customEvents_values_cons (s : GraphState) (l : List StreamEvent) :
    customEvents (.values s :: l) = customEvents l := by
  simp [customEvents, List.filterMap_cons]

theorem customEvents_map_custom (l : List String) :
    customEvents (l.map StreamEvent.custom) = l := by
  induction l with
  | nil => rfl
  | cons a as ih => simp [customEvents, List.filterMap_cons] at ih ⊢; exact ih

/-! ## The claims -/

/-- C1: whenever the context check stores `has_context = true` and the
retrieval check stores `has_documents = true`, the generation node runs
exactly once and the ordered concatenation of the fragments it emits as
custom output events is exactly the final `answer` field. -/
theorem claim_C1_reconstruction (oracle : Oracle) (prompt : String)
    (h1 : has_context_of oracle prompt = true)
    (h2 : has_documents_of prompt = true) :
    (runWorkflow oracle prompt).nodesRun.count .generate_answer = 1 ∧
    (runWorkflow oracle prompt).finalState.answer =
      some (String.join (customEvents (runWorkflow oracle prompt).events)) := by
  rw [run_success oracle prompt h1 h2]
  refine ⟨rfl, ?_⟩
  rw [customEvents_append, customEvents_append]
  rw [customEvents_values_cons, customEvents_values_cons, customEvents_values_cons,
    customEvents_values_cons, customEvents_map_custom]
  simp [customEvents, stream_accumulate_join]

/-- A gateway stub: the context check answers `"YES"`, the stream yields
`"Hel"`, `"lo"`, then a pure usage chunk `{input: 5, output: 2}`. -/
def demoOracle : Oracle :=
  { generate_content := fun _ => ⟨"YES", 3, 1⟩
    generate_content_stream := fun _ =>
      [⟨none, some "Hel"⟩, ⟨none, some "lo"⟩, ⟨some ⟨5, 2⟩, none⟩] }

/-- C1's witness: the spec's own scenario, fragments `["Hel","lo"]` and
final answer `"Hello"`. -/
theorem claim_C1_reconstruction_witness :
    (runWorkflow demoOracle "What is LangGraph?").nodesRun.count .generate_answer = 1 ∧
    (runWorkflow demoOracle "What is LangGraph?").finalState.answer = some "Hello" ∧
    customEvents (runWorkflow demoOracle "What is LangGraph?").events = ["Hel", "lo"] :=
  ⟨(claim_C1_reconstruction demoOracle "What is LangGraph?" (by decide) (by decide)).1,
    by decide, by decide⟩

/-- C2: when the context check stores `has_context = false` the final
answer is the fixed refusal string and neither the retrieval nor the
generation node runs; when it stores `true` but the retrieval check
stores `has_documents = false`, the final answer is the refusal string
and the generation node never runs. -/
theorem claim_C2_fallback (oracle : Oracle) (prompt : String) :
    (has_context_of oracle prompt = false →
      (runWorkflow oracle prompt).finalState.answer = some fallback_answer ∧
      (runWorkflow oracle prompt).nodesRun.count .generate_answer = 0 ∧
      (runWorkflow oracle prompt).nodesRun.count .retrieve_rag = 0) ∧
    (has_context_of oracle prompt = true → has_documents_of prompt = false →
      (runWorkflow oracle prompt).finalState.answer = some fallback_answer ∧
      (runWorkflow oracle prompt).nodesRun.count .generate_answer = 0) := by
  constructor
  · intro h
    rw [run_no_context oracle prompt h]
    exact ⟨rfl, rfl, rfl⟩
  · intro h1 h2
    rw [run_no_documents oracle prompt h1 h2]
    exact ⟨rfl, rfl⟩

/-- A gateway stub whose context check answers `"NO"`. -/
def refuseOracle : Oracle :=
  { generate_content := fun _ => ⟨"NO", 4, 1⟩
    generate_content_stream := fun _ => [] }

/-- C2's witness: a refused prompt, and a prompt with context but no
matching document (`demoOracle` answers `"YES"` but the prompt matches no
knowledge-base key). -/
theorem claim_C2_fallback_witness :
    ((runWorkflow refuseOracle "asdkjashdkjh nonsense").finalState.answer =
      some fallback_answer ∧
     (runWorkflow refuseOracle "asdkjashdkjh nonsense").nodesRun.count .generate_answer = 0 ∧
     (runWorkflow refuseOracle "asdkjashdkjh nonsense").nodesRun.count .retrieve_rag = 0) ∧
    ((runWorkflow demoOracle "what is the weather").finalState.answer =
      some fallback_answer ∧
     (runWorkflow demoOracle "what is the weather").nodesRun.count .generate_answer = 0) :=
  ⟨(claim_C2_fallback refuseOracle "asdkjashdkjh nonsense").1 (by decide),
   (claim_C2_fallback demoOracle "what is the weather").2 (by decide) (by decide)⟩

/-- C3: the context-check node issues exactly one single-shot call,
records exactly one usage report built from the response's token counts,
and stores `has_context = true` iff the token `"YES"` occurs in the
uppercased response text (the case-insensitive occurrence check of the
source). -/
theorem claim_C3_context_check (oracle : Oracle) (state : GraphState) :
    (check_context_node oracle state).model_calls = 1 ∧
    (check_context_node oracle state).reports =
      [usage_metadata_report
        (oracle.generate_content (check_context_prompt state.prompt)).prompt_token_count
        (oracle.generate_content (check_context_prompt state.prompt)).candidates_token_count] ∧
    ((check_context_node oracle state).state.has_context = some true ↔
      ∃ pre post,
        (strUpper (oracle.generate_content (check_context_prompt state.prompt)).text).data
          = pre ++ "YES".data ++ post) := by
  refine ⟨rfl, rfl, ?_⟩
  rw [show (check_context_node oracle state).state.has_context =
    some (strContainsSub "YES"
      (strUpper (oracle.generate_content (check_context_prompt state.prompt)).text))
    from rfl]
  rw [Option.some.injEq]
  exact containsL_iff _ _

/-- C4: the retrieval node makes no model call and records no usage
report, and stores `has_documents = true` iff one of the knowledge-base
keys `"langgraph"`, `"python"`, `"gemini"` occurs as a substring of the
lowercased prompt; in particular the query `"What is LangGraph?"` yields
`has_documents = true`. -/
theorem claim_C4_retrieval :
    (∀ state : GraphState,
      (retrieve_rag_node state).model_calls = 0 ∧
      (retrieve_rag_node state).reports = [] ∧
      ((retrieve_rag_node state).state.has_documents = some true ↔
        ∃ k ∈ (["langgraph", "python", "gemini"] : List String),
          ∃ pre post, (strLower state.prompt).data = pre ++ k.data ++ post)) ∧
    (retrieve_rag_node ⟨"What is LangGraph?", none, none, none⟩).state.has_documents
      = some true := by
  constructor
  · intro state
    refine ⟨rfl, rfl, ?_⟩
    rw [show (retrieve_rag_node state).state.has_documents =
      some (!(retrieved_documents state.prompt).isEmpty) from rfl]
    rw [Option.some.injEq]
    rw [Bool.not_eq_true']
    rw [Bool.eq_false_iff]
    simp only [ne_eq, List.isEmpty_iff, retrieved_documents,
      List.map_eq_nil_iff, List.filter_eq_nil_iff, not_forall, not_not,
      exists_prop]
    simp [mock_knowledge_base, strContainsSub, containsL_iff]
  · decide

/-- C5: along every execution, exactly one usage report is recorded per
model call, and every recorded report has non-negative token counts with
`total_tokens = input_tokens + output_tokens`. -/
theorem claim_C5_usage_reports (oracle : Oracle) (prompt : String) :
    (runWorkflow oracle prompt).usageReports.length =
      (runWorkflow oracle prompt).model_calls ∧
    ∀ r ∈ (runWorkflow oracle prompt).usageReports,
      0 ≤ r.input_tokens ∧ 0 ≤ r.output_tokens ∧
      r.total_tokens = r.input_tokens + r.output_tokens := by
  by_cases h1 : has_context_of oracle prompt = true
  · by_cases h2 : has_documents_of prompt = true
    · rw [run_success oracle prompt h1 h2]
      refine ⟨rfl, ?_⟩
      intro r hr
      simp only [List.mem_cons, List.not_mem_nil, or_false] at hr
      rcases hr with rfl | rfl <;>
        simp [check_report, gen_report, usage_metadata_report]
    · rw [run_no_documents oracle prompt h1 (Bool.not_eq_true _ ▸ h2)]
      refine ⟨rfl, ?_⟩
      intro r hr
      simp only [List.mem_cons, List.not_mem_nil, or_false] at hr
      rcases hr with rfl
      simp [check_report, usage_metadata_report]
  · rw [run_no_context oracle prompt (Bool.not_eq_true _ ▸ h1)]
    refine ⟨rfl, ?_⟩
    intro r hr
    simp only [List.mem_cons, List.not_mem_nil, or_false] at hr
    rcases hr with rfl
    simp [check_report, usage_metadata_report]

/-- C5's witness: on the spec's streaming scenario the run records one
report per call, and the generation report has `total = 5 + 2 = 7`. -/
theorem claim_C5_usage_reports_witness :
    (runWorkflow demoOracle "What is LangGraph?").usageReports.length =
      (runWorkflow demoOracle "What is LangGraph?").model_calls ∧
    (runWorkflow demoOracle "What is LangGraph?").usageReports =
      [usage_metadata_report 3 1, usage_metadata_report 5 2] ∧
    (usage_metadata_report 5 2).total_tokens = 7 :=
  ⟨(claim_C5_usage_reports demoOracle "What is LangGraph?").1, by decide, by decide⟩

/-- C6: `converse` forwards every fragment the workflow yields as the
literal event `"data: <fragment>\n\n"`; when the workflow raises, the
already-forwarded prefix is unchanged and exactly one terminal
`"data: [ERROR]\n\n"` event is appended, after which the stream ends. -/
theorem claim_C6_converse (chunks : List String) :
    converse chunks false = chunks.map sse_event ∧
    converse chunks true = chunks.map sse_event ++ [sse_error_event] ∧
    (converse chunks true).take chunks.length = converse chunks false ∧
    (converse chunks true).length = chunks.length + 1 := by
  have hf : ∀ l : List String, converse l false = l.map sse_event := by
    intro l
    induction l with
    | nil => rfl
    | cons c cs ih => simp [converse, ih]
  have ht : ∀ l : List String, converse l true = l.map sse_event ++ [sse_error_event] := by
    intro l
    induction l with
    | nil => rfl
    | cons c cs ih => simp [converse, ih]
  refine ⟨hf chunks, ht chunks, ?_, ?_⟩
  · rw [ht chunks, hf chunks]
    rw [show chunks.length = (chunks.map sse_event).length by simp]
    exact List.take_left ..
  · rw [ht chunks]
    simp

/-- C7's counterexample: `__usage_metadata` has no `try`/`except`, so a
failure raised by `run.add_metadata` propagates to the caller instead of
being swallowed. -/
theorem claim_C7_counterexample :
    usage_metadata (.attach_raises "boom") 5 2 = .error "boom" := rfl

/-- C7 as amended: the recorder handles the *absence* of a current run
(nothing recorded, no error), and records exactly one report when
attaching succeeds, but an exception raised while attaching metadata
propagates to the caller — it is not swallowed. -/
theorem claim_C7_amended (input_tokens output_tokens : Nat) :
    usage_metadata .no_run input_tokens output_tokens = .ok [] ∧
    usage_metadata .attach_ok input_tokens output_tokens =
      .ok [usage_metadata_report input_tokens output_tokens] ∧
    ∀ msg, usage_metadata (.attach_raises msg) input_tokens output_tokens =
      .error msg :=
  ⟨rfl, rfl, fun _ => rfl⟩

/-- Every edge of the graph strictly increases the topological rank. -/
theorem successors_rank : ∀ a b : Node, b ∈ successors a → nodeRank a < nodeRank b := by
  decide

/-- A chain of edges strictly increases the rank. -/
theorem transGen_rank {a b : Node}
    (h : Relation.TransGen (fun x y : Node => y ∈ successors x) a b) :
    nodeRank a < nodeRank b := by
  induction h with
  | single h => exact successors_rank _ _ h
  | tail _ h ih => exact lt_trans ih (successors_rank _ _ h)

/-- C8: `check_context` is the unique entry point; every node either
routes totally (its condition's outcome label is always in its edge map)
or is terminal; the edge relation is acyclic (it strictly increases a
rank, and no node reaches itself through edges); and every execution
ends in exactly one terminal node — `cannot_answer`, or `END` after
`generate_answer`. -/
theorem claim_C8_topology :
    entry_point = .check_context ∧
    (∀ n : Node, ∀ s : GraphState,
      (routeFrom n s).isSome = true ∨ successors n = []) ∧
    (∀ a b : Node, b ∈ successors a → nodeRank a < nodeRank b) ∧
    (∀ n : Node,
      ¬ Relation.TransGen (fun x y : Node => y ∈ successors x) n n) ∧
    (∀ oracle : Oracle, ∀ prompt : String,
      ((runWorkflow oracle prompt).finalNode = .cannot_answer ∨
        (runWorkflow oracle prompt).finalNode = .END) ∧
      successors (runWorkflow oracle prompt).finalNode = []) := by
  refine ⟨rfl, ?_, successors_rank, ?_, ?_⟩
  · intro n s
    cases n with
    | check_context =>
      left
      cases hb : s.has_context.getD false <;>
        simp [routeFrom, check_context_condition, check_context_edges, List.lookup, hb]
    | retrieve_rag =>
      left
      cases hb : s.has_documents.getD false <;>
        simp [routeFrom, retrieve_rag_condition, retrieve_rag_edges, List.lookup, hb]
    | generate_answer => exact Or.inl rfl
    | cannot_answer => exact Or.inr rfl
    | END => exact Or.inr rfl
  · intro n h
    exact absurd (transGen_rank h) (lt_irrefl _)
  · intro oracle prompt
    by_cases h1 : has_context_of oracle prompt = true
    · by_cases h2 : has_documents_of prompt = true
      · rw [run_success oracle prompt h1 h2]
        exact ⟨Or.inr rfl, rfl⟩
      · rw [run_no_documents oracle prompt h1 (Bool.not_eq_true _ ▸ h2)]
        exact ⟨Or.inl rfl, rfl⟩
    · rw [run_no_context oracle prompt (Bool.not_eq_true _ ▸ h1)]
      exact ⟨Or.inl rfl, rfl⟩

/-- C8's witness: a concrete edge raises the rank, and a concrete
execution ends in a terminal node. -/
theorem claim_C8_topology_witness :
    nodeRank .check_context < nodeRank .retrieve_rag ∧
    ((runWorkflow demoOracle "What is LangGraph?").finalNode = .cannot_answer ∨
      (runWorkflow demoOracle "What is LangGraph?").finalNode = .END) ∧
    successors (runWorkflow demoOracle "What is LangGraph?").finalNode = [] :=
  ⟨claim_C8_topology.2.2.1 .check_context .retrieve_rag (by decide),
   (claim_C8_topology.2.2.2.2 demoOracle "What is LangGraph?").1,
   (claim_C8_topology.2.2.2.2 demoOracle "What is LangGraph?").2⟩

/-- The truthiness filter of `stream` keeps every custom event whose
fragment is non-empty. -/
theorem filterMap_output_map_custom (l : List String) (h : ∀ t ∈ l, t ≠ "") :
    (l.map StreamEvent.custom).filterMap stream_output? = l := by
  induction l with
  | nil => rfl
  | cons a as ih =>
    simp only [List.map_cons, List.filterMap_cons]
    have ha : a ≠ "" := h a (by simp)
    simp [stream_output?, chunk_answer, ha, ih fun t ht => h t (by simp [ht])]

/-- A gateway stub whose stream carries usage but no text at all. -/
def silentOracle : Oracle :=
  { generate_content := fun _ => ⟨"YES", 3, 1⟩
    generate_content_stream := fun _ => [⟨some ⟨5, 2⟩, none⟩] }

/-- C9's counterexample: an execution that reaches the generation node
whose stream carries no text.  The generation node runs, but `stream`
yields no event at all — in particular no final full-answer event — so
the claimed "fragments followed by one additional final event" fails. -/
theorem claim_C9_counterexample :
    (runWorkflow silentOracle "python").nodesRun.count .generate_answer = 1 ∧
    streamOutputs silentOracle "python" = [] := by decide

/-- C9 as amended: `stream` forwards the `"custom"` and `"values"`
channels filtered by answer-truthiness; for every execution reaching the
generation node *whose accumulated answer is non-empty*, the caller
receives all incremental fragments followed by one additional final
event carrying the whole accumulated answer, and a fallback execution
yields exactly one event, the refusal text. -/
theorem claim_C9_amended (oracle : Oracle) (prompt : String) :
    (has_context_of oracle prompt = true → has_documents_of prompt = true →
      (stream_accumulate (oracle.generate_content_stream prompt)).response_text ≠ "" →
      streamOutputs oracle prompt =
        (stream_accumulate (oracle.generate_content_stream prompt)).written ++
          [(stream_accumulate (oracle.generate_content_stream prompt)).response_text]) ∧
    (has_context_of oracle prompt = false →
      streamOutputs oracle prompt = [fallback_answer]) ∧
    (has_context_of oracle prompt = true → has_documents_of prompt = false →
      streamOutputs oracle prompt = [fallback_answer]) := by
  have hfb : fallback_answer ≠ "" := by decide
  refine ⟨?_, ?_, ?_⟩
  · intro h1 h2 h3
    unfold streamOutputs
    rw [run_success oracle prompt h1 h2]
    simp only [List.filterMap_append, List.filterMap_cons, List.filterMap_nil]
    rw [filterMap_output_map_custom _ (stream_accumulate_written_ne _)]
    simp [stream_output?, chunk_answer, h3]
  · intro h
    unfold streamOutputs
    rw [run_no_context oracle prompt h]
    simp [stream_output?, chunk_answer, List.filterMap_cons, hfb]
  · intro h1 h2
    unfold streamOutputs
    rw [run_no_documents oracle prompt h1 h2]
    simp [stream_output?, chunk_answer, List.filterMap_cons, hfb]

/-- C9's witness: on the spec's scenario the caller sees `"Hel"`, `"lo"`
and then the duplicated full answer `"Hello"`; a refused prompt yields
exactly the refusal text. -/
theorem claim_C9_amended_witness :
    streamOutputs demoOracle "What is LangGraph?" = ["Hel", "lo", "Hello"] ∧
    streamOutputs refuseOracle "anything" = [fallback_answer] := by
  constructor
  · rw [(claim_C9_amended demoOracle "What is LangGraph?").1
      (by decide) (by decide) (by decide)]
    decide
  · exact (claim_C9_amended refuseOracle "anything").2.1 (by decide)

/-- The loop's final token counts are those of the last chunk carrying a
usage object, or the `0`/`0` defaults when none does. -/
theorem stream_accumulate_tokens (chunks : List Chunk) :
    (stream_accumulate chunks).input_tokens =
      (match last_usage chunks with
        | some u => u.prompt_token_count
        | none => 0) ∧
    (stream_accumulate chunks).output_tokens =
      (match last_usage chunks with
        | some u => u.candidates_token_count
        | none => 0) :=
  foldl_genStep_tokens chunks _

/-- C10: the generation node always records exactly one usage report —
with counts `0`/`0` when no chunk carried usage metadata, and with the
counts of the last usage-carrying chunk otherwise — and a chunk whose
text is absent or empty contributes nothing to the accumulated answer or
the emitted fragments. -/
theorem claim_C10_generation_usage (oracle : Oracle) (state : GraphState) :
    (generate_answer_node oracle state).reports.length = 1 ∧
    (last_usage (oracle.generate_content_stream state.prompt) = none →
      (generate_answer_node oracle state).reports = [usage_metadata_report 0 0]) ∧
    (∀ u : ChunkUsage,
      last_usage (oracle.generate_content_stream state.prompt) = some u →
      (generate_answer_node oracle state).reports =
        [usage_metadata_report u.prompt_token_count u.candidates_token_count]) ∧
    (∀ acc : GenAcc, ∀ c : Chunk, (c.text = none ∨ c.text = some "") →
      (genStep acc c).response_text = acc.response_text ∧
      (genStep acc c).written = acc.written) := by
  rcases stream_accumulate_tokens (oracle.generate_content_stream state.prompt)
    with ⟨hi, ho⟩
  refine ⟨rfl, ?_, ?_, ?_⟩
  · intro h
    rw [h] at hi ho
    show [usage_metadata_report _ _] = _
    rw [hi, ho]
  · intro u h
    rw [h] at hi ho
    show [usage_metadata_report _ _] = _
    rw [hi, ho]
  · intro acc c hc
    rcases c with ⟨u, t⟩
    rcases hc with h | h <;> simp only at h <;> subst h <;>
      cases u <;> simp [genStep]

/-- C10's witness: `silentOracle`'s stream has one text-free usage chunk,
so the recorded report carries its counts `5`/`2` and the accumulated
answer stays empty. -/
theorem claim_C10_generation_usage_witness :
    (generate_answer_node silentOracle ⟨"python", none, some true, some true⟩).reports =
      [usage_metadata_report 5 2] ∧
    (genStep ⟨"", 0, 0, []⟩ ⟨some ⟨5, 2⟩, none⟩).response_text = "" :=
  ⟨(claim_C10_generation_usage silentOracle
      ⟨"python", none, some true, some true⟩).2.2.1 ⟨5, 2⟩ (by decide),
   ((claim_C10_generation_usage silentOracle
      ⟨"python", none, some true, some true⟩).2.2.2 ⟨"", 0, 0, []⟩
      ⟨some ⟨5, 2⟩, none⟩ (Or.inl rfl)).1⟩

end AgentWorkflow
